import Mathlib

/-!
Shallow embedding of the n8n-style workflow MTA filter
(`src/target/n8n-mta/workflow-filter.py`) and proofs of the spec claims.

Python dicts carrying email data are modelled as insertion-ordered
association lists over a `Value` type mirroring the Python values the
program stores (strings, booleans, ints, lists, dicts, `None`).  The
recursive graph traversal `_execute_node` is modelled with an explicit
fuel argument (`executeNodeF`) so that it is structurally recursive and
kernel-computable; `executeNode` instantiates the fuel at a bound that
is provably sufficient, and the fuel-irrelevance theorem below is the
termination statement for arbitrary (including cyclic) graphs.
-/

namespace Wf

/-- Python value model: the values the filter stores in its data records. -/
inductive Value where
  | null
  | str (s : String)
  | bool (b : Bool)
  | nat (n : Nat)
  | list (xs : List Value)
  | dict (kvs : List (String × Value))

/-- A data record: a Python dict from string keys to values, in insertion order. -/
abbrev Record := List (String × Value)

/-- Python dict assignment `r[k] = v`: overwrite in place if the key exists,
otherwise append at the end. -/
def recordInsert (r : Record) (k : String) (v : Value) : Record :=
  if r.any (fun kv => kv.1 == k) then
    r.map (fun kv => if kv.1 == k then (k, v) else kv)
  else
    r ++ [(k, v)]

/-- Python `r.get(k)`: first binding of the key, if any. -/
def recordLookup (r : Record) (k : String) : Option Value :=
  (r.find? (fun kv => kv.1 == k)).map (fun kv => kv.2)

/-- Python repr of a string uses single quotes; built without a quote literal. -/
def pyQuote : String := String.singleton (Char.ofNat 39)

mutual

/-- Python `repr` of a value (containers render their elements with `repr`). -/
def Value.pyRepr : Value → String
  | .null => "None"
  | .str s => pyQuote ++ s ++ pyQuote
  | .bool b => if b then "True" else "False"
  | .nat n => toString n
  | .list xs => "[" ++ pyReprList xs ++ "]"
  | .dict kvs => "\x7b" ++ pyReprDict kvs ++ "\x7d"

/-- Comma-separated reprs of list elements. -/
def pyReprList : List Value → String
  | [] => ""
  | [v] => v.pyRepr
  | v :: rest => v.pyRepr ++ ", " ++ pyReprList rest

/-- Comma-separated reprs of dict entries. -/
def pyReprDict : List (String × Value) → String
  | [] => ""
  | [(k, v)] => pyQuote ++ k ++ pyQuote ++ ": " ++ v.pyRepr
  | (k, v) :: rest => pyQuote ++ k ++ pyQuote ++ ": " ++ v.pyRepr ++ ", " ++ pyReprDict rest

end

/-- Python `str` of a value. -/
def Value.pyStr : Value → String
  | .str s => s
  | .bool b => if b then "True" else "False"
  | .null => "None"
  | .nat n => toString n
  | v => v.pyRepr

/-- Python truthiness of a value. -/
def Value.truthy : Value → Bool
  | .null => false
  | .str s => !(s == "")
  | .bool b => b
  | .nat n => n != 0
  | .list xs => !xs.isEmpty
  | .dict kvs => !kvs.isEmpty

/-- Truthiness of `data.get(k)`: a missing key is `None`, hence falsy. -/
def truthyLookup (r : Record) (k : String) : Bool :=
  match recordLookup r k with
  | none => false
  | some v => v.truthy

/-- Head-anchored substring match over character lists. -/
def matchSub : List Char → List Char → Bool
  | [], _ => true
  | _ :: _, [] => false
  | a :: as, b :: bs => a == b && matchSub as bs

/-- Python `needle in hay` substring containment over character lists. -/
def containsSub : List Char → List Char → Bool
  | needle, [] => matchSub needle []
  | needle, b :: t => matchSub needle (b :: t) || containsSub needle t

/-- Python `needle in hay` on strings. -/
def strContains (needle hay : String) : Bool :=
  containsSub needle.data hay.data

/-- Python `s.lower()`: ASCII case folding, character by character. -/
def pyLower (s : String) : String :=
  String.mk (s.data.map Char.toLower)

/-- Python `s.startswith(pre)`. -/
def pyStartsWith (s pre : String) : Bool :=
  matchSub pre.data s.data

/-- Python `s.endswith(post)`. -/
def pyEndsWith (s post : String) : Bool :=
  matchSub post.data.reverse s.data.reverse

/-- Python `s.strip()`: drop whitespace from both ends. -/
def pyStrip (s : String) : String :=
  String.mk (((s.data.dropWhile Char.isWhitespace).reverse.dropWhile
    Char.isWhitespace).reverse)

/-- Leading decimal digits of a character list, and the remainder. -/
def splitDigits : List Char → List Char × List Char
  | [] => ([], [])
  | c :: rest =>
    if c.isDigit then
      let (d, r) := splitDigits rest
      (c :: d, r)
    else ([], c :: rest)

/-- Digit characters to a natural number. -/
def digitsToNat (ds : List Char) : Nat :=
  ds.foldl (fun a c => a * 10 + (c.toNat - 48)) 0

/-- Optional leading sign of a numeric literal. -/
def readSign : List Char → Int × List Char
  | '+' :: r => (1, r)
  | '-' :: r => (-1, r)
  | r => (1, r)

/-- Scale an integer mantissa by a signed power of ten, as a rational. -/
def ratScale (mant : Int) (e : Int) : Rat :=
  if 0 ≤ e then (mant : Rat) * (10 : Rat) ^ e.toNat
  else (mant : Rat) / (10 : Rat) ^ (-e).toNat

/-- Model of Python `float(s)` on decimal literals: optional sign, digits with
optional fraction, optional exponent; surrounding whitespace stripped.  A
string not of this shape (e.g. non-numeric text) fails to parse, which the
caller turns into the `ValueError` branch. -/
def pyFloat? (s : String) : Option Rat :=
  let cs0 := (pyStrip s).data
  let (sgn, cs1) := readSign cs0
  let (ip, cs2) := splitDigits cs1
  let (fp, cs3) :=
    match cs2 with
    | '.' :: r => splitDigits r
    | _ => ([], cs2)
  if ip.isEmpty && fp.isEmpty then none
  else
    let mant : Int := sgn * (digitsToNat (ip ++ fp) : Int)
    match cs3 with
    | [] => some (ratScale mant (-(fp.length : Int)))
    | e :: r =>
      if e == 'e' || e == 'E' then
        let (esgn, r1) := readSign r
        let (ed, r2) := splitDigits r1
        if ed.isEmpty || !r2.isEmpty then none
        else some (ratScale mant (esgn * (digitsToNat ed : Int) - (fp.length : Int)))
      else none

/-- Regular-expression syntax for the model of Python `re.search`. -/
inductive RE where
  | fail
  | eps
  | anyc
  | chr (c : Char)
  | cls (neg : Bool) (items : List (Char × Char))

  | alt (a b : RE)
  | cat (a b : RE)
  | star (a : RE)

/-- Apply trailing quantifiers to a parsed atom. -/
def applyQuant : RE → List Char → RE × List Char
  | r, '*' :: rest => applyQuant (.star r) rest
  | r, '+' :: rest => applyQuant (.cat r (.star r)) rest
  | r, '?' :: rest => applyQuant (.alt r .eps) rest
  | r, rest => (r, rest)

/-- Parse a character-class body up to the closing bracket. -/
def parseCls : List Char → Except String (List (Char × Char) × List Char)
  | [] => .error "unterminated character class"
  | ']' :: rest => .ok ([], rest)
  | a :: '-' :: b :: rest =>
    if b == ']' then .ok ([(a, a), ('-', '-')], rest)
    else
      match parseCls rest with
      | .ok (items, r) => .ok ((a, b) :: items, r)
      | .error e => .error e
  | a :: rest =>
    match parseCls rest with
    | .ok (items, r) => .ok ((a, a) :: items, r)
    | .error e => .error e

/-- Fuel-indexed recursive-descent pattern parser; `mode` 0 parses an
alternation, 1 a concatenation, other values one quantified atom. -/
def parseRE (fuel : Nat) (mode : Nat) (cs : List Char) :
    Except String (RE × List Char) :=
  match fuel with
  | 0 => .error "pattern too deeply nested"
  | fuel + 1 =>
    if mode == 0 then
      match parseRE fuel 1 cs with
      | .error e => .error e
      | .ok (r, rest) =>
        match rest with
        | '|' :: rest2 =>
          match parseRE fuel 0 rest2 with
          | .ok (r2, rest3) => .ok (.alt r r2, rest3)
          | .error e => .error e
        | _ => .ok (r, rest)
    else if mode == 1 then
      match cs with
      | [] => .ok (.eps, [])
      | ')' :: _ => .ok (.eps, cs)
      | '|' :: _ => .ok (.eps, cs)
      | _ =>
        match parseRE fuel 2 cs with
        | .error e => .error e
        | .ok (r, rest) =>
          match parseRE fuel 1 rest with
          | .error e => .error e
          | .ok (r2, rest2) => .ok (.cat r r2, rest2)
    else
      match cs with
      | [] => .error "expected an atom"
      | c :: rest =>
        if c == '(' then
          match parseRE fuel 0 rest with
          | .error e => .error e
          | .ok (r, rest2) =>
            match rest2 with
            | ')' :: rest3 => .ok (applyQuant r rest3)
            | _ => .error "missing closing paren"
        else if c == '[' then
          let (neg, body) :=
            match rest with
            | '^' :: r2 => (true, r2)
            | _ => (false, rest)
          match parseCls body with
          | .error e => .error e
          | .ok (items, rest2) => .ok (applyQuant (.cls neg items) rest2)
        else if c == '*' || c == '+' || c == '?' then .error "nothing to repeat"
        else if c == '\\' then
          match rest with
          | [] => .error "bad escape, pattern ends with backslash"
          | e :: rest2 => .ok (applyQuant (.chr e) rest2)
        else if c == '.' then .ok (applyQuant .anyc rest)
        else .ok (applyQuant (.chr c) rest)

/-- Nullability: does the expression match the empty string. -/
def RE.nullable : RE → Bool
  | .fail => false
  | .eps => true
  | .anyc => false
  | .chr _ => false
  | .cls _ _ => false
  | .alt a b => a.nullable || b.nullable
  | .cat a b => a.nullable && b.nullable
  | .star _ => true

/-- Character-class membership test. -/
def clsMatch (neg : Bool) (items : List (Char × Char)) (c : Char) : Bool :=
  let inside := items.any (fun p => p.1 ≤ c && c ≤ p.2)
  if neg then !inside else inside

/-- Brzozowski derivative of an expression by one character. -/
def RE.deriv : RE → Char → RE
  | .fail, _ => .fail
  | .eps, _ => .fail
  | .anyc, _ => .eps
  | .chr a, c => if a == c then .eps else .fail
  | .cls neg items, c => if clsMatch neg items c then .eps else .fail
  | .alt a b, c => .alt (a.deriv c) (b.deriv c)
  | .cat a b, c =>
    if a.nullable then .alt (.cat (a.deriv c) b) (b.deriv c)
    else .cat (a.deriv c) b
  | .star a, c => .cat (a.deriv c) (.star a)

/-- Whole-string match via derivatives. -/
def reMatches (r : RE) (s : List Char) : Bool :=
  (s.foldl RE.deriv r).nullable

/-- Model of `re.search(pattern, input, re.IGNORECASE)`: parse the pattern
(errors model `re.error`), then look for a match anywhere in the input;
case folding models the IGNORECASE flag. -/
def reSearch (pattern input : String) : Except String Bool :=
  let ps := (pyLower pattern).data
  match parseRE (3 * ps.length + 10) 0 ps with
  | .error e => .error e
  | .ok (r, rest) =>
    match rest with
    | [] => .ok (reMatches (.cat (.star .anyc) (.cat r (.star .anyc))) (pyLower input).data)
    | _ => .error "unbalanced parenthesis in pattern"

/-- Body of `FilterNode._evaluate_condition` before its `try`/`except`:
each operator branch, with the fallible steps (`float(...)`, pattern
compilation) surfacing as `Except.error`.  The final branch is the
unknown-operator case, which returns `False` directly in the source. -/
def evalConditionChecked (fieldValue operator value : String) : Except String Bool :=
  if operator == "equals" then .ok (pyLower fieldValue == pyLower value)
  else if operator == "contains" then .ok (strContains (pyLower value) (pyLower fieldValue))
  else if operator == "starts_with" then .ok (pyStartsWith (pyLower fieldValue) (pyLower value))
  else if operator == "ends_with" then .ok (pyEndsWith (pyLower fieldValue) (pyLower value))
  else if operator == "regex" then reSearch value fieldValue
  else if operator == "not_equals" then .ok (!(pyLower fieldValue == pyLower value))
  else if operator == "not_contains" then .ok (!strContains (pyLower value) (pyLower fieldValue))
  else if operator == "greater_than" then
    match pyFloat? fieldValue, pyFloat? value with
    | some a, some b => .ok (decide (b < a))
    | _, _ => .error "could not convert string to float"
  else if operator == "less_than" then
    match pyFloat? fieldValue, pyFloat? value with
    | some a, some b => .ok (decide (a < b))
    | _, _ => .error "could not convert string to float"
  else .ok false

/-- `FilterNode._evaluate_condition`: the `except` clause catches any
evaluation fault and returns `False`. -/
def evalCondition (fieldValue operator value : String) : Bool :=
  match evalConditionChecked fieldValue operator value with
  | .ok b => b
  | .error _ => false

/-- The fixed field-alias table of `FilterNode._get_field_value`. -/
def fieldAlias (field : String) : String :=
  if field == "sender" then "from"
  else if field == "recipient" then "to"
  else if field == "subject" then "subject"
  else if field == "body" then "body"
  else if field == "size" then "size"
  else field

/-- `FilterNode._get_field_value`: `str(data.get(actual_field, ''))`. -/
def getFieldValue (data : Record) (field : String) : String :=
  match recordLookup data (fieldAlias field) with
  | some v => v.pyStr
  | none => ""

/-- One configured filter condition. -/
structure Condition where
  field : String
  operator : String
  value : String

/-- Match result of a single condition against a record. -/
def condResult (data : Record) (c : Condition) : Bool :=
  evalCondition (getFieldValue data c.field) c.operator c.value

/-- Entry appended to `filter_results` for one condition. -/
structure FilterResult where
  field : String
  operator : String
  value : String
  result : Bool

/-- The `filter_results` entries computed by the loop in `FilterNode.execute`. -/
def filterResults (conds : List Condition) (data : Record) : List FilterResult :=
  conds.map (fun c => ⟨c.field, c.operator, c.value, condResult data c⟩)

/-- Encoding of a filter-result entry as the stored Python dict. -/
def FilterResult.encode (fr : FilterResult) : Value :=
  .dict [("field", .str fr.field), ("operator", .str fr.operator),
         ("value", .str fr.value), ("result", .bool fr.result)]

/-- `FilterNode.execute`: store per-condition results, then combine them with
the configured logic (`AND` takes `all`, anything else takes `any`). -/
def filterExecute (conds : List Condition) (logic : String) (data : Record) : Record :=
  let frs := filterResults conds data
  let withResults := recordInsert data "filter_results" (.list (frs.map FilterResult.encode))
  let passed := if logic == "AND" then frs.all (fun r => r.result) else frs.any (fun r => r.result)
  recordInsert withResults "filter_passed" (.bool passed)

/-- Configuration an `ActionNode` reads (`action_type` plus per-action keys). -/
structure ActionConfig where
  action_type : Option String
  reason : Option String
  folder : Option String
  forward_to : Option String
  headers : List (String × Value)
  tags : List Value

/-- `ActionNode.execute`: set `action` and the action-specific payload; an
unrecognized (or missing) `action_type` matches no branch and the copied
record is returned unchanged. -/
def actionExecute (cfg : ActionConfig) (data : Record) : Record :=
  if cfg.action_type == some "reject" then
    recordInsert (recordInsert data "action" (.str "reject"))
      "reject_reason" (.str (cfg.reason.getD "Message rejected by filter"))
  else if cfg.action_type == some "quarantine" then
    recordInsert (recordInsert data "action" (.str "quarantine"))
      "quarantine_folder" (.str (cfg.folder.getD "/var/mail/quarantine"))
  else if cfg.action_type == some "forward" then
    recordInsert (recordInsert data "action" (.str "forward"))
      "forward_to" (match cfg.forward_to with | some s => .str s | none => .null)
  else if cfg.action_type == some "modify_headers" then
    recordInsert (recordInsert data "action" (.str "modify_headers"))
      "header_modifications" (.dict cfg.headers)
  else if cfg.action_type == some "accept" then
    recordInsert data "action" (.str "accept")
  else if cfg.action_type == some "tag" then
    recordInsert (recordInsert data "action" (.str "tag")) "tags" (.list cfg.tags)
  else data

/-- Node behaviour discriminator, holding each variant's configuration. -/
inductive NodeKind where
  | trigger
  | filter (logic : Option String) (conditions : List Condition)
  | action (cfg : ActionConfig)

/-- The `node_type` string the engine compares against. -/
def NodeKind.typeStr : NodeKind → String
  | .trigger => "trigger"
  | .filter _ _ => "filter"
  | .action _ => "action"

/-- A connection: target node id and optional condition label. -/
structure Conn where
  target : String
  condition : Option String

/-- A workflow node: id, variant, and ordered outgoing connections. -/
structure Node where
  nodeId : String
  kind : NodeKind
  connections : List Conn

/-- The engine's node arena (`self.nodes`), in insertion order. -/
structure Graph where
  nodes : List Node

/-- Dict lookup `self.nodes[i]` / `i in self.nodes`. -/
def arenaFind (ns : List Node) (i : String) : Option Node :=
  ns.find? (fun n => n.nodeId == i)

/-- Execute one node's own logic (`node.execute(data)`); the filter's
`logic` defaults to `AND` exactly as `config.get('logic', 'AND')` does. -/
def nodeExec (node : Node) (data : Record) : Record :=
  match node.kind with
  | .trigger => data
  | .filter logic conditions => filterExecute conditions (logic.getD "AND") data
  | .action cfg => actionExecute cfg data

/-- `WorkflowEngine._should_follow_connection`: `if not condition` is true for
both a missing label and an empty-string label (Python falsiness of `None`
and `''`); otherwise a `"true"` label follows iff `filter_passed` is truthy
and a `"false"` label follows iff it is falsy. -/
def shouldFollowConnection (data : Record) (condition : Option String) : Bool :=
  if !(match condition with | none => false | some s => !(s == "")) then true
  else if condition == some "true" && truthyLookup data "filter_passed" then true
  else if condition == some "false" && !truthyLookup data "filter_passed" then true
  else false

/-- `WorkflowEngine._execute_node`, with an explicit fuel argument making the
recursion structural.  A call at fuel `0` returns the record unchanged, the
same value the cycle guard returns; `executeNode` below always supplies
enough fuel for the guard, not the fuel, to be what stops cyclic traversals
(theorem `executeNodeF_fuel_irrel`). -/
def executeNodeF (g : Graph) : Nat → Node → Record → List String → Record
  | 0, _, data, _ => data
  | fuel + 1, node, data, visited =>
    if node.nodeId ∈ visited then data
    else
      node.connections.foldl
        (fun result c =>
          if shouldFollowConnection result c.condition then
            match arenaFind g.nodes c.target with
            | some target => executeNodeF g fuel target result (node.nodeId :: visited)
            | none => result
          else result)
        (nodeExec node data)

/-- One step of the connection loop: follow the connection (if its condition
holds and its target exists) starting from the record produced so far. -/
def followStep (g : Graph) (fuel : Nat) (visited : List String)
    (result : Record) (c : Conn) : Record :=
  if shouldFollowConnection result c.condition then
    match arenaFind g.nodes c.target with
    | some target => executeNodeF g fuel target result visited
    | none => result
  else result

/-- `WorkflowEngine._execute_node` at a fuel bound that is always sufficient
(one more than the number of nodes; traversal depth cannot exceed the
number of distinct node ids plus one). -/
def executeNode (g : Graph) (node : Node) (data : Record) (visited : List String) : Record :=
  executeNodeF g (g.nodes.length + 1) node data visited

/-- `WorkflowEngine.execute`: find the first trigger node; if none exists,
short-circuit with the accept-with-error record, else start the traversal
with an empty visited set. -/
def engineExecute (g : Graph) (emailData : Record) : Record :=
  match g.nodes.find? (fun n => n.kind.typeStr == "trigger") with
  | none => [("action", .str "accept"), ("error", .str "No trigger node")]
  | some trigger => executeNode g trigger emailData []

/-- The set of node ids present in the graph arena. -/
def graphIds (g : Graph) : Finset String :=
  (g.nodes.map (fun n => n.nodeId)).toFinset

/-- Number of graph node ids not yet visited: the traversal-depth measure. -/
def unvisitedCount (g : Graph) (v : List String) : Nat :=
  (graphIds g \ v.toFinset).card

/-- One node descriptor of a configuration document. -/
structure NodeConfig where
  id : String
  ntype : String
  logic : Option String
  conditions : List Condition
  action_type : Option String
  reason : Option String
  folder : Option String
  forward_to : Option String
  headers : List (String × Value)
  tags : List Value

/-- One connection descriptor of a configuration document. -/
structure ConnConfig where
  source : String
  target : String
  condition : Option String

/-- A workflow configuration document. -/
structure WorkflowConfig where
  nodes : List NodeConfig
  connections : List ConnConfig

/-- Instantiate one node from its descriptor; unknown types are skipped. -/
def buildNode (nc : NodeConfig) : Option Node :=
  if nc.ntype == "trigger" then some ⟨nc.id, .trigger, []⟩
  else if nc.ntype == "filter" then some ⟨nc.id, .filter nc.logic nc.conditions, []⟩
  else if nc.ntype == "action" then
    some ⟨nc.id, .action ⟨nc.action_type, nc.reason, nc.folder, nc.forward_to,
                          nc.headers, nc.tags⟩, []⟩
  else none

/-- Dict insertion `self.nodes[node_id] = node`: replace in place or append. -/
def arenaInsert (ns : List Node) (n : Node) : List Node :=
  if ns.any (fun m => m.nodeId == n.nodeId) then
    ns.map (fun m => if m.nodeId == n.nodeId then n else m)
  else ns ++ [n]

/-- Attach one configured connection to its source node, if the source exists;
connections with a missing source are dropped. -/
def addConnection (ns : List Node) (cc : ConnConfig) : List Node :=
  if ns.any (fun m => m.nodeId == cc.source) then
    ns.map (fun m =>
      if m.nodeId == cc.source then
        ⟨m.nodeId, m.kind, m.connections ++ [⟨cc.target, cc.condition⟩]⟩
      else m)
  else ns

/-- `WorkflowEngine._build_workflow`: instantiate nodes, then attach connections. -/
def buildWorkflow (cfg : WorkflowConfig) : Graph :=
  let ns := cfg.nodes.foldl
    (fun acc nc =>
      match buildNode nc with
      | some n => arenaInsert acc n
      | none => acc) []
  ⟨cfg.connections.foldl addConnection ns⟩

/-- Node descriptor with only id and type set (trigger nodes). -/
def mkPlainNodeConfig (i ty : String) : NodeConfig :=
  ⟨i, ty, none, [], none, none, none, none, [], []⟩

/-- Filter-node descriptor. -/
def mkFilterConfig (i : String) (logic : Option String) (conds : List Condition) : NodeConfig :=
  ⟨i, "filter", logic, conds, none, none, none, none, [], []⟩

/-- Action-node descriptor with an action type and optional reason. -/
def mkActionConfig (i : String) (ty : Option String) (reason : Option String) : NodeConfig :=
  ⟨i, "action", none, [], ty, reason, none, none, [], []⟩

/-- The built-in default configuration of `EmailProcessor._create_default_config`. -/
def defaultConfig : WorkflowConfig :=
  ⟨[mkPlainNodeConfig "trigger1" "trigger",
    mkFilterConfig "filter1" (some "OR")
      [⟨"subject", "contains", "[SPAM]"⟩, ⟨"sender", "contains", "noreply@spam"⟩],
    mkActionConfig "action1" (some "reject") (some "Message identified as spam"),
    mkActionConfig "action2" (some "accept") none],
   [⟨"trigger1", "filter1", none⟩,
    ⟨"filter1", "action1", some "true"⟩,
    ⟨"filter1", "action2", some "false"⟩]⟩

/-- A diamond-shaped configuration: the trigger fans out to two branches that
both reach the shared descendant `d1`. -/
def diamondConfig : WorkflowConfig :=
  ⟨[mkPlainNodeConfig "t1" "trigger",
    mkActionConfig "b1" none none,
    mkActionConfig "c1" (some "accept") none,
    mkActionConfig "d1" (some "reject") none],
   [⟨"t1", "b1", none⟩,
    ⟨"t1", "c1", none⟩,
    ⟨"b1", "d1", none⟩,
    ⟨"c1", "d1", none⟩]⟩

/-- A cyclic configuration: `a1` and `b1` form a directed cycle. -/
def cycleConfig : WorkflowConfig :=
  ⟨[mkPlainNodeConfig "t1" "trigger",
    mkActionConfig "a1" none none,
    mkActionConfig "b1" none none],
   [⟨"t1", "a1", none⟩,
    ⟨"a1", "b1", none⟩,
    ⟨"b1", "a1", none⟩]⟩

/-- Record with subject `[SPAM] buy now` and otherwise empty fields. -/
def spamRecord : Record :=
  [("from", .str ""), ("to", .str ""), ("subject", .str "[SPAM] buy now"), ("body", .str "")]

/-- Record with subject `hello` and sender `a@b.com`. -/
def hamRecord : Record :=
  [("from", .str "a@b.com"), ("to", .str ""), ("subject", .str "hello"), ("body", .str "")]

/-- One MIME part as seen by `_extract_body`: its content type and the result
of `get_payload(decode=True)`, where `none` models the `None` payload on
which the subsequent `.decode(...)` raises. -/
structure MsgPart where
  contentType : String
  payload : Option String

/-- A parsed message as produced by `email.message_from_string`. -/
structure ParsedMsg where
  headers : List (String × String)
  multipart : Bool
  parts : List MsgPart
  contentType : String
  payload : Option String

/-- Python `msg.get(name, '')`: case-insensitive lookup of the first header. -/
def msgGet (m : ParsedMsg) (name : String) : String :=
  match m.headers.find? (fun h => pyLower h.1 == pyLower name) with
  | some h => h.2
  | none => ""

/-- `EmailProcessor._extract_body`: concatenate the decoded `text/plain`
parts (or the single body); a `None` payload surfaces as an error, which
the caller's `try`/`except` catches. -/
def extractBody (m : ParsedMsg) : Except String String :=
  if m.multipart then
    m.parts.foldl
      (fun acc p =>
        match acc with
        | .error e => .error e
        | .ok b =>
          if p.contentType == "text/plain" then
            match p.payload with
            | some s => .ok (b ++ s)
            | none => .error "NoneType object has no attribute decode"
          else .ok b)
      (.ok "")
  else if m.contentType == "text/plain" then
    match m.payload with
    | some s => .ok s
    | none => .error "NoneType object has no attribute decode"
  else .ok ""

/-- The extraction step of `EmailProcessor.process_email`: build the
`email_data` record; any fault inside extraction surfaces as an error. -/
def buildEmailData (raw now : String) (m : ParsedMsg) : Except String Record :=
  match extractBody m with
  | .error e => .error e
  | .ok body =>
    .ok [("from", .str (msgGet m "From")),
         ("to", .str (msgGet m "To")),
         ("subject", .str (msgGet m "Subject")),
         ("date", .str (msgGet m "Date")),
         ("message_id", .str (msgGet m "Message-ID")),
         ("body", .str body),
         ("size", .nat raw.length),
         ("headers", .dict (m.headers.map (fun h => (h.1, Value.str h.2)))),
         ("timestamp", .str now)]

/-- `EmailProcessor.process_email`: the surrounding `try`/`except` maps any
extraction fault to an accept-with-error record instead of propagating it;
otherwise the workflow runs (or, with no engine, accept-with-error). -/
def processEmail (engine : Option Graph) (raw now : String) (m : ParsedMsg) : Record :=
  match buildEmailData raw now m with
  | .error e => [("action", .str "accept"), ("error", .str e)]
  | .ok d =>
    match engine with
    | some g => engineExecute g d
    | none => [("action", .str "accept"), ("error", .str "No workflow engine")]

/-- The nine operator strings handled by `_evaluate_condition`. -/
def supportedOperators : List String :=
  ["equals", "contains", "starts_with", "ends_with", "regex",
   "not_equals", "not_contains", "greater_than", "less_than"]

theorem find?_map_subst (r : Record) (k : String) (v : Value)
    (h : r.any (fun kv => kv.1 == k) = true) :
    (r.map (fun kv => if kv.1 == k then (k, v) else kv)).find? (fun kv => kv.1 == k)
      = some (k, v) := by
  induction r with
  | nil => simp at h
  | cons hd t ih =>
    simp only [List.map_cons]
    by_cases hk : (hd.1 == k) = true
    · rw [if_pos hk]
      simp [List.find?]
    · have hk' : (hd.1 == k) = false := by simpa using hk
      rw [if_neg hk]
      simp only [List.find?, hk']
      apply ih
      rw [List.any_cons] at h
      simpa [hk'] using h

theorem find?_append_new (r : Record) (k : String) (v : Value)
    (h : r.any (fun kv => kv.1 == k) = false) :
    (r ++ [(k, v)]).find? (fun kv => kv.1 == k) = some (k, v) := by
  induction r with
  | nil => simp [List.find?]
  | cons hd t ih =>
    rw [List.any_cons, Bool.or_eq_false_iff] at h
    obtain ⟨hk, ht⟩ := h
    rw [List.cons_append]
    simp only [List.find?, hk]
    exact ih ht

/-- Looking up a key right after inserting it yields the inserted value. -/
theorem recordLookup_insert_self (r : Record) (k : String) (v : Value) :
    recordLookup (recordInsert r k v) k = some v := by
  unfold recordInsert recordLookup
  by_cases h : r.any (fun kv => kv.1 == k) = true
  · rw [if_pos h, find?_map_subst r k v h]
    rfl
  · have h' : r.any (fun kv => kv.1 == k) = false := by
      cases hb : r.any (fun kv => kv.1 == k)
      · rfl
      · exact absurd hb h
    rw [if_neg h, find?_append_new r k v h']
    rfl

/-- C1: for every Filter node execution, with `AND` logic `filter_passed` is
true iff every individual condition result is true; with `OR` logic it is
true iff at least one result is true; with the empty condition list `AND`
yields true and `OR` yields false. -/
theorem filter_logic_and_or (conds : List Condition) (logic : String) (data : Record) :
    (logic = "AND" →
      (recordLookup (filterExecute conds logic data) "filter_passed"
          = some (.bool true) ↔ ∀ c ∈ conds, condResult data c = true))
    ∧ (logic = "OR" →
      (recordLookup (filterExecute conds logic data) "filter_passed"
          = some (.bool true) ↔ ∃ c ∈ conds, condResult data c = true))
    ∧ (conds = [] →
        recordLookup (filterExecute conds "AND" data) "filter_passed" = some (.bool true)
        ∧ recordLookup (filterExecute conds "OR" data) "filter_passed" = some (.bool false)) := by
  refine ⟨?_, ?_, ?_⟩
  · intro h
    subst h
    simp [filterExecute, recordLookup_insert_self, filterResults, Function.comp]
  · intro h
    subst h
    simp [filterExecute, recordLookup_insert_self, filterResults, Function.comp]
  · intro h
    subst h
    simp [filterExecute, recordLookup_insert_self, filterResults]

/-- Witness for C1 at concrete inputs. -/
theorem filter_logic_and_or_witness :
    recordLookup (filterExecute [⟨"subject", "equals", "x"⟩] "AND"
        [("subject", Value.str "x")]) "filter_passed" = some (Value.bool true)
    ∧ recordLookup (filterExecute [] "OR" []) "filter_passed" = some (Value.bool false) :=
  ⟨((filter_logic_and_or [⟨"subject", "equals", "x"⟩] "AND"
      [("subject", Value.str "x")]).1 rfl).mpr (by decide),
   ((filter_logic_and_or [] "OR" []).2.2 rfl).2⟩

/-- C3 counterexample: a connection labeled with the empty string is neither
absent nor labeled `"true"`/`"false"`, yet the code follows it (Python
`if not condition` treats the empty string like a missing label), so "any
other label is never followed" fails at this input. -/
theorem follow_empty_label_counterexample :
    shouldFollowConnection [] (some "") = true
    ∧ (some "" : Option String) ≠ none
    ∧ "" ≠ "true" ∧ "" ≠ "false" :=
  ⟨rfl, by simp, by decide, by decide⟩

/-- C3 amended: a connection whose label is absent or the empty string is
always followed; a `"true"` label is followed iff `filter_passed` is truthy;
a `"false"` label is followed iff it is falsy; any other non-empty label is
never followed; hence for a fixed record exactly one of a `"true"`- and a
`"false"`-labeled connection is eligible. -/
theorem should_follow_amended (data : Record) (cond : Option String) :
    ((cond = none ∨ cond = some "") → shouldFollowConnection data cond = true)
    ∧ (cond = some "true" →
        shouldFollowConnection data cond = truthyLookup data "filter_passed")
    ∧ (cond = some "false" →
        shouldFollowConnection data cond = !truthyLookup data "filter_passed")
    ∧ (∀ l, cond = some l → l ≠ "" → l ≠ "true" → l ≠ "false" →
        shouldFollowConnection data cond = false)
    ∧ (shouldFollowConnection data (some "true") = true
        ↔ ¬(shouldFollowConnection data (some "false") = true)) := by
  refine ⟨?_, ?_, ?_, ?_, ?_⟩
  · rintro (h | h) <;> subst h <;> rfl
  · intro h
    subst h
    cases htr : truthyLookup data "filter_passed" <;>
      simp [shouldFollowConnection, htr]
  · intro h
    subst h
    cases htr : truthyLookup data "filter_passed" <;>
      simp [shouldFollowConnection, htr]
  · intro l h hne htrue hfalse
    subst h
    have hl : (l == "") = false := beq_eq_false_iff_ne.mpr hne
    have h2 : ((some l : Option String) == some "true") = false :=
      beq_eq_false_iff_ne.mpr (by simpa using htrue)
    have h3 : ((some l : Option String) == some "false") = false :=
      beq_eq_false_iff_ne.mpr (by simpa using hfalse)
    simp [shouldFollowConnection, hl, h2, h3]
  · cases htr : truthyLookup data "filter_passed" <;>
      simp [shouldFollowConnection, htr]

/-- Witness for the amended C3 at concrete inputs. -/
theorem should_follow_amended_witness :
    shouldFollowConnection [] none = true
    ∧ shouldFollowConnection [("filter_passed", Value.bool true)] (some "true")
        = truthyLookup [("filter_passed", Value.bool true)] "filter_passed"
    ∧ shouldFollowConnection [] (some "maybe") = false :=
  ⟨(should_follow_amended [] none).1 (Or.inl rfl),
   (should_follow_amended [("filter_passed", Value.bool true)] (some "true")).2.1 rfl,
   (should_follow_amended [] (some "maybe")).2.2.2.1 "maybe" rfl (by decide) (by decide)
     (by decide)⟩

/-- C10: when the `filter_passed` key is entirely absent, `data.get` yields
`None`, which is falsy, so a `"false"`-labeled connection is followed and a
`"true"`-labeled one is not. -/
theorem absent_filter_passed_follows_false (data : Record)
    (h : recordLookup data "filter_passed" = none) :
    shouldFollowConnection data (some "false") = true
    ∧ shouldFollowConnection data (some "true") = false := by
  have ht : truthyLookup data "filter_passed" = false := by
    simp [truthyLookup, h]
  constructor <;> simp [shouldFollowConnection, ht]

/-- Witness for C10 on the empty record. -/
theorem absent_filter_passed_witness :
    shouldFollowConnection [] (some "false") = true
    ∧ shouldFollowConnection [] (some "true") = false :=
  absent_filter_passed_follows_false [] rfl

/-- C9: an Action node whose `action_type` matches none of the six known
actions matches no branch of `execute`, so the (copied) record is returned
unchanged and in particular no `action` key is set. -/
theorem action_unknown_type_noop (cfg : ActionConfig) (data : Record)
    (h : ∀ s ∈ ["reject", "quarantine", "forward", "modify_headers", "accept", "tag"],
          cfg.action_type ≠ some s) :
    actionExecute cfg data = data := by
  have h1 := h "reject" (by simp)
  have h2 := h "quarantine" (by simp)
  have h3 := h "forward" (by simp)
  have h4 := h "modify_headers" (by simp)
  have h5 := h "accept" (by simp)
  have h6 := h "tag" (by simp)
  simp [actionExecute, h1, h2, h3, h4, h5, h6]

/-- Witness for C9 with an unrecognized action type. -/
theorem action_unknown_type_noop_witness :
    actionExecute ⟨some "explode", none, none, none, [], []⟩ [("x", Value.str "1")]
      = [("x", Value.str "1")] :=
  action_unknown_type_noop ⟨some "explode", none, none, none, [], []⟩
    [("x", Value.str "1")] (by decide)

/-- C5: condition evaluation is total (it is a Lean function into `Bool`);
an operator outside the supported set evaluates to `false`, and any fault
of the checked evaluation — a non-numeric operand of `greater_than` or
`less_than`, or an invalid regex — is caught and evaluates to `false`. -/
theorem condition_eval_never_raises (fv op v : String) :
    (op ∉ supportedOperators → evalCondition fv op v = false)
    ∧ (∀ e, evalConditionChecked fv op v = .error e → evalCondition fv op v = false)
    ∧ ((op = "greater_than" ∨ op = "less_than") → pyFloat? fv = none →
        evalCondition fv op v = false)
    ∧ (op = "regex" → ∀ e, reSearch v fv = .error e → evalCondition fv op v = false) := by
  refine ⟨?_, ?_, ?_, ?_⟩
  · intro h
    simp only [supportedOperators, List.mem_cons, not_or] at h
    obtain ⟨h1, h2, h3, h4, h5, h6, h7, h8, h9, -⟩ := h
    simp [evalCondition, evalConditionChecked, h1, h2, h3, h4, h5, h6, h7, h8, h9]
  · intro e he
    simp [evalCondition, he]
  · rintro (h | h) hfv <;> subst h <;>
      simp [evalCondition, evalConditionChecked, hfv]
  · intro h e he
    subst h
    simp [evalCondition, evalConditionChecked, he]

/-- Witness for C5: an unknown operator, a non-numeric `greater_than`
operand, and an invalid regular expression all evaluate to `false`. -/
theorem condition_eval_never_raises_witness :
    evalCondition "x" "frobnicate" "y" = false
    ∧ evalCondition "abc" "greater_than" "1000" = false
    ∧ evalCondition "hello" "regex" "(" = false :=
  ⟨(condition_eval_never_raises "x" "frobnicate" "y").1 (by decide),
   (condition_eval_never_raises "abc" "greater_than" "1000").2.2.1 (Or.inl rfl) rfl,
   (condition_eval_never_raises "hello" "regex" "(").2.2.2 rfl
     "missing closing paren" rfl⟩

/-- The cycle guard: a node whose id is already visited returns the record
unchanged, at any fuel (fuel `0` returns the same value by construction). -/
theorem executeNodeF_guard (g : Graph) (f : Nat) (n : Node) (d : Record)
    (v : List String) (h : n.nodeId ∈ v) : executeNodeF g f n d v = d := by
  cases f with
  | zero => simp [executeNodeF]
  | succ f => simp [executeNodeF, h]

/-- Visiting a fresh graph node strictly decreases the unvisited count. -/
theorem unvisitedCount_cons_lt (g : Graph) (x : String) (v : List String)
    (hx : x ∈ graphIds g) (hxv : x ∉ v) :
    unvisitedCount g (x :: v) < unvisitedCount g v := by
  unfold unvisitedCount
  have hmem : x ∈ graphIds g \ v.toFinset := by
    rw [Finset.mem_sdiff]
    exact ⟨hx, by simpa using hxv⟩
  have hins : graphIds g \ (x :: v).toFinset = (graphIds g \ v.toFinset).erase x := by
    ext a
    simp only [Finset.mem_sdiff, Finset.mem_erase, List.mem_toFinset, List.mem_cons]
    tauto
  rw [hins]
  exact Finset.card_erase_lt_of_mem hmem

/-- The unvisited count never exceeds the number of nodes. -/
theorem unvisitedCount_le_length (g : Graph) (v : List String) :
    unvisitedCount g v ≤ g.nodes.length := by
  unfold unvisitedCount
  calc (graphIds g \ v.toFinset).card
      ≤ (graphIds g).card := Finset.card_le_card (Finset.sdiff_subset)
    _ ≤ (g.nodes.map (fun n => n.nodeId)).length := List.toFinset_card_le _
    _ = g.nodes.length := List.length_map _ _

/-- Fuel irrelevance: any two fuels at least one more than the number of
unvisited graph ids give the same traversal result.  This is the
termination argument of `_execute_node`: the visited set grows with every
recursive step into a graph node, so the recursion depth is bounded and
the result is independent of any sufficiently large fuel — on every graph,
cyclic ones included. -/
theorem executeNodeF_fuel_irrel (g : Graph) :
    ∀ f₁ f₂ (n : Node) (d : Record) (v : List String),
      unvisitedCount g (n.nodeId :: v) + 1 ≤ f₁ →
      unvisitedCount g (n.nodeId :: v) + 1 ≤ f₂ →
      executeNodeF g f₁ n d v = executeNodeF g f₂ n d v := by
  intro f₁
  induction f₁ with
  | zero => intro f₂ n d v h1 h2; omega
  | succ a ih =>
    intro f₂ n d v h1 h2
    cases f₂ with
    | zero => omega
    | succ b =>
      by_cases hv : n.nodeId ∈ v
      · rw [executeNodeF_guard g _ n d v hv, executeNodeF_guard g _ n d v hv]
      · simp only [executeNodeF]
        rw [if_neg hv, if_neg hv]
        show n.connections.foldl (followStep g a (n.nodeId :: v)) (nodeExec n d)
            = n.connections.foldl (followStep g b (n.nodeId :: v)) (nodeExec n d)
        have hstep : followStep g a (n.nodeId :: v) = followStep g b (n.nodeId :: v) := by
          funext r c
          unfold followStep
          cases hsf : shouldFollowConnection r c.condition
          · simp
          · simp only [if_true]
            cases hfind : arenaFind g.nodes c.target with
            | none => rfl
            | some tn =>
              simp only []
              by_cases htn : tn.nodeId ∈ (n.nodeId :: v)
              · rw [executeNodeF_guard g a tn r _ htn, executeNodeF_guard g b tn r _ htn]
              · have hidmem : tn.nodeId ∈ graphIds g := by
                  unfold graphIds
                  rw [List.mem_toFinset]
                  exact List.mem_map_of_mem _ (List.mem_of_find?_eq_some hfind)
                have hlt := unvisitedCount_cons_lt g tn.nodeId (n.nodeId :: v) hidmem htn
                exact ih b tn r (n.nodeId :: v) (by omega) (by omega)
        rw [hstep]

/-- Any fuel at least the default bound agrees with `executeNode`. -/
theorem executeNode_eq_executeNodeF (g : Graph) (f : Nat) (n : Node) (d : Record)
    (v : List String) (hf : g.nodes.length + 1 ≤ f) :
    executeNodeF g f n d v = executeNode g n d v := by
  unfold executeNode
  have hle := unvisitedCount_le_length g (n.nodeId :: v)
  exact executeNodeF_fuel_irrel g f (g.nodes.length + 1) n d v (by omega) (by omega)

/-- C2: traversal terminates on every graph, cyclic ones included — the
result of `executeNode` is stable under any further fuel, so the recursion
bottoms out through the visited-set guard, never through exhaustion — and
reaching a node whose id is already in the current branch's visited set
returns the data record unchanged for that branch. -/
theorem traversal_terminates_and_cycle_guard (g : Graph) (n : Node) (d : Record)
    (v : List String) (f : Nat) :
    (g.nodes.length + 1 ≤ f → executeNodeF g f n d v = executeNode g n d v)
    ∧ (n.nodeId ∈ v → executeNode g n d v = d) :=
  ⟨fun hf => executeNode_eq_executeNodeF g f n d v hf,
   fun hv => executeNodeF_guard g _ n d v hv⟩

/-- Witness for C2 on the cyclic graph `a1 → b1 → a1`. -/
theorem traversal_terminates_witness :
    executeNodeF (buildWorkflow cycleConfig) 9 ⟨"t1", .trigger, [⟨"a1", none⟩]⟩ [] []
        = executeNode (buildWorkflow cycleConfig) ⟨"t1", .trigger, [⟨"a1", none⟩]⟩ [] []
    ∧ executeNode (buildWorkflow cycleConfig)
        ⟨"a1", .action ⟨none, none, none, none, [], []⟩, [⟨"b1", none⟩]⟩ [] ["a1"] = [] :=
  ⟨(traversal_terminates_and_cycle_guard (buildWorkflow cycleConfig)
      ⟨"t1", .trigger, [⟨"a1", none⟩]⟩ [] [] 9).1 (by decide),
   (traversal_terminates_and_cycle_guard (buildWorkflow cycleConfig)
      ⟨"a1", .action ⟨none, none, none, none, [], []⟩, [⟨"b1", none⟩]⟩ [] ["a1"] 9).2
     (by decide)⟩

/-- C4: on a graph with no trigger node, `execute` short-circuits to the
accept-with-error record; the returned value is this literal record, so no
node of the graph is executed and the input record is discarded. -/
theorem no_trigger_accepts (g : Graph) (d : Record)
    (h : ∀ n ∈ g.nodes, n.kind.typeStr ≠ "trigger") :
    engineExecute g d
      = [("action", Value.str "accept"), ("error", Value.str "No trigger node")] := by
  have hf : g.nodes.find? (fun n => n.kind.typeStr == "trigger") = none := by
    rw [List.find?_eq_none]
    intro n hn
    simp [h n hn]
  simp [engineExecute, hf]

/-- Witness for C4 on a one-action-node graph. -/
theorem no_trigger_accepts_witness :
    engineExecute ⟨[⟨"a1", .action ⟨none, none, none, none, [], []⟩, []⟩]⟩ [("x", Value.str "1")]
      = [("action", Value.str "accept"), ("error", Value.str "No trigger node")] :=
  no_trigger_accepts ⟨[⟨"a1", .action ⟨none, none, none, none, [], []⟩, []⟩]⟩
    [("x", Value.str "1")] (by decide)

/-- C7: the default configuration, built into a graph, rejects the record
with subject `[SPAM] buy now` and accepts the record with subject `hello`
from sender `a@b.com`. -/
theorem default_config_roundtrip :
    recordLookup (engineExecute (buildWorkflow defaultConfig) spamRecord) "action"
        = some (.str "reject")
    ∧ recordLookup (engineExecute (buildWorkflow defaultConfig) hamRecord) "action"
        = some (.str "accept") :=
  ⟨rfl, rfl⟩

/-- C8: descents receive the record produced so far and the extended visited
list, unchanged across siblings (the functional image of passing each child
`visited.copy()`); the record returned by a descent is threaded into the
next sibling connection, in configured order; and in the diamond graph the
shared descendant `d1` re-executes on the second branch — its `reject`
overwrites the `accept` written by that branch, which could not happen if
the branches shared one visited set. -/
theorem branch_visited_copy_and_threading :
    (∀ (g : Graph) (f : Nat) (node : Node) (data : Record) (visited : List String),
        node.nodeId ∉ visited →
        executeNodeF g (f + 1) node data visited
          = node.connections.foldl (followStep g f (node.nodeId :: visited))
              (nodeExec node data))
    ∧ (∀ (g : Graph) (f : Nat) (v : List String) (r : Record) (c : Conn) (rest : List Conn),
        List.foldl (followStep g f v) r (c :: rest)
          = List.foldl (followStep g f v) (followStep g f v r c) rest)
    ∧ recordLookup (engineExecute (buildWorkflow diamondConfig) []) "action"
        = some (.str "reject") := by
  refine ⟨?_, ?_, rfl⟩
  · intro g f node data visited h
    simp only [executeNodeF]
    rw [if_neg h]
    rfl
  · intro g f v r c rest
    rfl

/-- Witness for C8 at the diamond graph's trigger node. -/
theorem branch_visited_copy_witness :
    executeNodeF (buildWorkflow diamondConfig) 3
        ⟨"t1", .trigger, [⟨"b1", none⟩, ⟨"c1", none⟩]⟩ [] []
      = [(⟨"b1", none⟩ : Conn), ⟨"c1", none⟩].foldl
          (followStep (buildWorkflow diamondConfig) 2 ["t1"])
          (nodeExec ⟨"t1", .trigger, [⟨"b1", none⟩, ⟨"c1", none⟩]⟩ []) :=
  branch_visited_copy_and_threading.1 (buildWorkflow diamondConfig) 2
    ⟨"t1", .trigger, [⟨"b1", none⟩, ⟨"c1", none⟩]⟩ [] [] (by decide)

/-- C6: when extraction faults (modelled as `buildEmailData` returning an
error, e.g. a `None` payload inside `_extract_body`), `process_email`
catches it and returns an accept record carrying the `error` attribute
instead of propagating; every extraction field then reads back as the empty
default through the record's field-lookup semantics. -/
theorem extraction_fault_maps_to_error (engine : Option Graph) (raw now : String)
    (m : ParsedMsg) (e : String) (h : buildEmailData raw now m = .error e) :
    recordLookup (processEmail engine raw now m) "error" = some (.str e)
    ∧ recordLookup (processEmail engine raw now m) "action" = some (.str "accept")
    ∧ ∀ f ∈ ["sender", "recipient", "subject", "body", "size", "from", "to",
             "date", "message_id"],
        getFieldValue (processEmail engine raw now m) f = "" := by
  unfold processEmail
  rw [h]
  refine ⟨rfl, rfl, ?_⟩
  intro f hf
  fin_cases hf <;> rfl

/-- Witness for C6: a multipart message with an undecodable `text/plain`
part faults inside body extraction and is mapped to accept-with-error. -/
theorem extraction_fault_witness :
    recordLookup (processEmail none "raw" "now"
        ⟨[], true, [⟨"text/plain", none⟩], "", none⟩) "error"
      = some (.str "NoneType object has no attribute decode") :=
  (extraction_fault_maps_to_error none "raw" "now"
    ⟨[], true, [⟨"text/plain", none⟩], "", none⟩
    "NoneType object has no attribute decode" rfl).1

end Wf
